import Mathlib

/-!
# Verification of the powerschool-sync extract engine

Shallow embedding of `src/extract.py` and `src/powerschool_sync/extract.py`
(two variants of one synchronization script) and proofs about:

* the query-plan generation for each table (lines 102-139 of
  `src/powerschool_sync/extract.py`, lines 83-118 of `src/extract.py`);
* the token lifecycle (lines 46-79 of `src/powerschool_sync/extract.py`,
  lines 35-62 of `src/extract.py`);
* the per-expression count/fetch/persist/upload loop and its exception
  handling (lines 141-187 of `src/powerschool_sync/extract.py`);
* the deterministic artifact naming and upload keys (lines 141-180 of
  `src/powerschool_sync/extract.py`).

Timestamps are seconds as `Int`; calendar dates are day indices
(days since 1970-01-01) as `Nat`.
-/

namespace PowerschoolSync

/-! ### Calendar dates

`datetime.date` values are modelled as day indices (days since 1970-01-01).
`civilFromDays` is the standard civil-from-days conversion to a Gregorian
(year, month, day) triple, mirroring what CPython `date.isoformat()` prints. -/

/-- Gregorian (year, month, day) of a day index (days since 1970-01-01). -/
def civilFromDays (z0 : Nat) : Nat × Nat × Nat :=
  let z := z0 + 719468
  let era := z / 146097
  let doe := z % 146097
  let yoe := (doe - doe / 1460 + doe / 36524 - doe / 146096) / 365
  let y := yoe + era * 400
  let doy := doe - (365 * yoe + yoe / 4 - yoe / 100)
  let mp := (5 * doy + 2) / 153
  let d := doy - (153 * mp + 2) / 5 + 1
  let m := if mp < 10 then mp + 3 else mp - 9
  (if m ≤ 2 then y + 1 else y, m, d)

/-- Zero-padded two-digit decimal rendering. -/
def pad2 (n : Nat) : String := if n < 10 then "0" ++ toString n else toString n

/-- Zero-padded four-digit decimal rendering. -/
def pad4 (n : Nat) : String :=
  if n < 10 then "000" ++ toString n
  else if n < 100 then "00" ++ toString n
  else if n < 1000 then "0" ++ toString n
  else toString n

/-- ISO 8601 date string (YYYY-MM-DD) of a day index: `date.isoformat()`. -/
def isoformat (day : Nat) : String :=
  let c := civilFromDays day
  pad4 c.1 ++ "-" ++ pad2 c.2.1 ++ "-" ++ pad2 c.2.2

/-! ### Query-plan generation

One table entry of the queries file: `table_name`, optional `projection`,
optional `queries` object with `selector` and `values`
(`src/powerschool_sync/extract.py` lines 88-90, 104-106). A missing or empty
`values` list is falsy in Python, so it is modelled as `[]`. -/

structure QueryDescriptor where
  selector : String
  values : List String
deriving DecidableEq, Repr

/-- Modelled from the spec: `powerschool.utils.generate_historical_queries` is
an external library function (not under `src/`). Per the spec it returns one
filter expression per period, from the current period back to the earliest
tracked period (index 0 here), most-recent-period-first. The concrete shape of
each expression string is immaterial to the claims; `histExpr` stands for the
expression of one period. -/
def histExpr (selector : String) (yearid : Nat) : String :=
  selector ++ "=le=" ++ toString yearid

/-- Modelled from the spec: the historical generator's natural order is
most-recent-period-first (see `histExpr`). -/
def generate_historical_queries (current_yearid : Nat) (selector : String) : List String :=
  ((List.range (current_yearid + 1)).reverse).map (histExpr selector)

/-- Modelled from the spec: `powerschool.utils.transform_yearid` maps the
current year id through the selector's transform rule to one value token. -/
def transform_yearid (current_yearid : Nat) (selector : String) : String :=
  selector ++ toString current_yearid

/-- Modelled from the spec: the composition of
`powerschool.utils.get_constraint_values` and
`powerschool.utils.get_query_expression` for a non-"yesterday" value, a
range/comparison expression built from the selector's template. The concrete
shape is immaterial to the claims. -/
def constraintExpression (selector v : String) (current_yearid : Nat) : String :=
  selector ++ "==" ++ v ++ "." ++ toString current_yearid

/-- The "yesterday" branch, `src/powerschool_sync/extract.py` lines 125-128:
`f"{selector}=ge={yesterday.isoformat()}"` with
`yesterday = datetime.date.today() - datetime.timedelta(days=1)`. -/
def yesterdayExpression (selector : String) (today : Nat) : String :=
  selector ++ "=ge=" ++ isoformat (today - 1)

/-- The presence probe `[f for f in data_path.iterdir()]` coerced to bool
(`src/powerschool_sync/extract.py` line 109): true when the table's local
artifact directory holds at least one entry. Entries are carried by name only;
their contents never enter the computation. -/
def hasExistingData (files : List String) : Bool := !files.isEmpty

/-- Historical backfill branch, `src/powerschool_sync/extract.py` lines
110-115: the generator's output, reversed in place. `some` marks a real filter
string as opposed to the no-filter sentinel. -/
def historicalPlan (qd : QueryDescriptor) (current_yearid : Nat) : List (Option String) :=
  ((generate_historical_queries current_yearid qd.selector).reverse).map some

/-- Incremental branch, `src/powerschool_sync/extract.py` lines 116-137: if
`values` is falsy it is replaced by the transformed current year id; each value
resolves to the "yesterday" expression or a constraint expression. -/
def incrementalPlan (qd : QueryDescriptor) (current_yearid today : Nat) : List (Option String) :=
  let values :=
    if qd.values.isEmpty then [transform_yearid current_yearid qd.selector] else qd.values
  values.map (fun v =>
    if v = "yesterday" then some (yesterdayExpression qd.selector today)
    else some (constraintExpression qd.selector v current_yearid))

/-- Query-plan generation for one table, `src/powerschool_sync/extract.py`
lines 102-139 (identical in `src/extract.py` lines 83-118 up to the sentinel
spelling): no `queries` object gives the single no-filter sentinel; otherwise
the branch is chosen by the directory presence probe. -/
def plan (queries : Option QueryDescriptor) (files : List String)
    (current_yearid today : Nat) : List (Option String) :=
  match queries with
  | none => [none]
  | some qd =>
    if files.isEmpty then historicalPlan qd current_yearid
    else incrementalPlan qd current_yearid today

/-! ### Token lifecycle

`src/powerschool_sync/extract.py` lines 46-79. `expires_at` and `now` are
seconds; `token_remaining.days` is CPython `timedelta.days`, i.e. floor
division of the signed difference by 86400. -/

/-- CPython `timedelta.days` of a signed duration in seconds. -/
def tokenRemainingDays (remaining : Int) : Int := Int.fdiv remaining 86400

inductive AuthMode
  | cached
  | clientCredentials
deriving DecidableEq, Repr

structure AuthResult where
  mode : AuthMode
  refreshCalls : Nat
  saved : Bool
deriving DecidableEq, Repr

/-- Token lifecycle of `src/powerschool_sync/extract.py` lines 46-79: missing
token file, or a loaded token with at most 2 whole days remaining, triggers one
client-credentials authentication whose token is saved; otherwise the cached
token is used and nothing is written. -/
def authenticate (fileExists : Bool) (expires_at now : Int) : AuthResult :=
  if !fileExists then ⟨.clientCredentials, 1, true⟩
  else if tokenRemainingDays (expires_at - now) ≤ 2 then ⟨.clientCredentials, 1, true⟩
  else ⟨.cached, 0, false⟩

/-- Python exceptions that can escape the token-validity check of
`src/extract.py` lines 50-58: reading the never-assigned `token_remaining`
(NameError), or the bare `raise` with no active exception (RuntimeError). -/
inductive PyExc
  | nameError
  | runtimeReraise
deriving DecidableEq, Repr

/-- The `try` body of `src/extract.py` lines 51-56. `token_remaining` is only
assigned on the branch where the token file exists (lines 36-42), so the check
at line 52 reads an unassigned name when the file is missing. When it is bound
and has fewer than 1 whole day remaining, line 53 is a bare `raise`. -/
def tokenCheckLegacy (fileExists : Bool) (expires_at now : Int) : Except PyExc AuthMode :=
  let token_remaining : Option Int := if fileExists then some (expires_at - now) else none
  match token_remaining with
  | none => .error .nameError
  | some r =>
    if tokenRemainingDays r < 1 then .error .runtimeReraise
    else .ok .cached

/-- The whole `try`/`except` of `src/extract.py` lines 51-58: any exception
from the check falls through to client-credentials authentication. -/
def authenticateLegacy (fileExists : Bool) (expires_at now : Int) : AuthMode :=
  match tokenCheckLegacy fileExists expires_at now with
  | .ok m => m
  | .error _ => .clientCredentials

/-! ### The per-expression pipeline

`src/powerschool_sync/extract.py` lines 141-187. External calls are modelled
by an oracle `ExprOutcome` fixing, for one expression, what each call would
return or raise; `processExpr` replays the control flow of the loop body on
that oracle. `email.send_email` appears inside both `except` handlers and is
itself unguarded, so its failure is modelled as escaping (`RunError`). -/

inductive ErrClass
  | authExpired
  | transportDisconnect
  | transient
  | generic
deriving DecidableEq, Repr

structure ExprOutcome where
  countResult : Except ErrClass Nat
  notifyCountOk : Bool
  fetchResult : Except ErrClass Nat
  persistResult : Except ErrClass Unit
  uploadResult : Except ErrClass Unit
  notifyExtractOk : Bool
deriving Repr

inductive CallEvent
  | countCall
  | queryCall
  | saveCall
  | uploadCall
  | notifyCall
deriving DecidableEq, Repr

inductive ExprStatus
  | uploaded
  | skippedZero
  | skippedCountError
  | extractErrorReported
deriving DecidableEq, Repr

inductive RunError
  | notifyRaised
deriving DecidableEq, Repr

/-- Loop body for one expression, `src/powerschool_sync/extract.py` lines
141-187: a count failure is printed and emailed and the expression skipped
(`continue`, line 160); with a positive count, fetch/persist/upload run under
one handler that prints and emails any exception; `email.send_email` raising
inside a handler escapes the loop entirely. The returned trace lists the
external calls made. -/
def processExpr (o : ExprOutcome) : Except RunError (ExprStatus × List CallEvent) :=
  match o.countResult with
  | .error _ =>
    if o.notifyCountOk then .ok (.skippedCountError, [.countCall, .notifyCall])
    else .error .notifyRaised
  | .ok n =>
    if n > 0 then
      match o.fetchResult with
      | .error _ =>
        if o.notifyExtractOk then .ok (.extractErrorReported, [.countCall, .queryCall, .notifyCall])
        else .error .notifyRaised
      | .ok _ =>
        match o.persistResult with
        | .error _ =>
          if o.notifyExtractOk then
            .ok (.extractErrorReported, [.countCall, .queryCall, .saveCall, .notifyCall])
          else .error .notifyRaised
        | .ok _ =>
          match o.uploadResult with
          | .error _ =>
            if o.notifyExtractOk then
              .ok (.extractErrorReported, [.countCall, .queryCall, .saveCall, .uploadCall, .notifyCall])
            else .error .notifyRaised
          | .ok _ => .ok (.uploaded, [.countCall, .queryCall, .saveCall, .uploadCall])
    else .ok (.skippedZero, [.countCall])

/-- Status an expression reaches when every notify call succeeds. -/
def statusOf (o : ExprOutcome) : ExprStatus :=
  match o.countResult with
  | .error _ => .skippedCountError
  | .ok n =>
    if n > 0 then
      match o.fetchResult, o.persistResult, o.uploadResult with
      | .error _, _, _ => .extractErrorReported
      | .ok _, .error _, _ => .extractErrorReported
      | .ok _, .ok _, .error _ => .extractErrorReported
      | .ok _, .ok _, .ok _ => .uploaded
    else .skippedZero

/-- Both notify oracles of one expression report success. -/
def notifiesOk (o : ExprOutcome) : Bool := o.notifyCountOk && o.notifyExtractOk

/-- The count call raised. -/
def countFailed (o : ExprOutcome) : Bool :=
  match o.countResult with
  | .error _ => true
  | .ok _ => false

/-- The expression loop `for q in query_params` (line 141): an exception that
escapes one iteration propagates and the remaining iterations never run. -/
def processExprs (os : List ExprOutcome) : Except RunError (List ExprStatus) :=
  match os with
  | [] => .ok []
  | o :: rest =>
    match processExpr o with
    | .error e => .error e
    | .ok (s, _) =>
      match processExprs rest with
      | .error e => .error e
      | .ok ss => .ok (s :: ss)

/-- The table loop `for t in tables` (line 87): an exception that escapes one
table propagates and the remaining tables never run. -/
def processTables (tables : List (List ExprOutcome)) : Except RunError (List (List ExprStatus)) :=
  match tables with
  | [] => .ok []
  | os :: rest =>
    match processExprs os with
    | .error e => .error e
    | .ok ss =>
      match processTables rest with
      | .error e => .error e
      | .ok rs => .ok (ss :: rs)

/-- Trace of external calls one expression makes when every notify call
succeeds; mirrors the branches of `processExpr`. -/
def traceOf (o : ExprOutcome) : List CallEvent :=
  match o.countResult with
  | .error _ => [.countCall, .notifyCall]
  | .ok n =>
    if n > 0 then
      match o.fetchResult with
      | .error _ => [.countCall, .queryCall, .notifyCall]
      | .ok _ =>
        match o.persistResult with
        | .error _ => [.countCall, .queryCall, .saveCall, .notifyCall]
        | .ok _ =>
          match o.uploadResult with
          | .error _ => [.countCall, .queryCall, .saveCall, .uploadCall, .notifyCall]
          | .ok _ => [.countCall, .queryCall, .saveCall, .uploadCall]
    else [.countCall]

/-- All-ok oracle for one expression with a count of `n` and `m` fetched
records: every external call succeeds. -/
def happyOutcome (n m : Nat) : ExprOutcome :=
  ⟨.ok n, true, .ok m, .ok (), .ok (), true⟩

/-- Oracle for an expression whose fetch raises a transport-level disconnect
while every other call would succeed. -/
def disconnectOutcome : ExprOutcome :=
  ⟨.ok 5, true, .error .transportDisconnect, .ok (), .ok (), true⟩

/-- Oracle for an expression whose count call fails and whose notify call in
the count-error handler also fails. -/
def badNotifyOutcome : ExprOutcome :=
  ⟨.error .transient, false, .ok 0, .ok (), .ok (), true⟩

/-! ### Artifact naming and stores

`src/powerschool_sync/extract.py` lines 141-180. `data_file` is
`PROJECT_PATH / "data" / host_clean / table_name / filename`, so
`data_file.parts[-3:]` is `[host_clean, table_name, filename]`. -/

/-- Local artifact file name, lines 143-149: `f"{table_name}_{q}.json.gz"` for
a filter string, `f"{table_name}.json.gz"` for the no-filter sentinel. -/
def data_file_name (table_name : String) (q : Option String) : String :=
  match q with
  | some qs => table_name ++ "_" ++ qs ++ ".json.gz"
  | none => table_name ++ ".json.gz"

/-- Local artifact path as its path components under the project root. -/
def local_data_file_parts (host_clean table_name : String) (q : Option String) : List String :=
  ["data", host_clean, table_name, data_file_name table_name q]

/-- Remote object key, lines 175-177:
`"powerschool/" + "/".join(data_file.parts[-3:])`. -/
def destination_blob_name (host_clean table_name : String) (q : Option String) : String :=
  "powerschool/" ++ host_clean ++ "/" ++ table_name ++ "/" ++ data_file_name table_name q

/-- Serialized artifact body: `json.dump(data, f)` on the fetched records
(opaque rows modelled as numbers), a function of the records alone. -/
def serialize (records : List Nat) : String := toString records

/-- Local writes of one table's loop on the happy path: for each planned
filter whose remote record set is non-empty, one artifact write at the
deterministic path with the serialized records (lines 162-172). -/
def runTableWrites (host_clean table_name : String) (remote : Option String → List Nat)
    (qs : List (Option String)) : List (List String × String) :=
  qs.foldr (fun q acc =>
    if (remote q).length > 0 then
      (local_data_file_parts host_clean table_name q, serialize (remote q)) :: acc
    else acc) []

/-- Remote uploads of one table's loop on the happy path: same guard and
content, keyed by the blob name (lines 174-180). -/
def runTableUploads (host_clean table_name : String) (remote : Option String → List Nat)
    (qs : List (Option String)) : List (String × String) :=
  qs.foldr (fun q acc =>
    if (remote q).length > 0 then
      (destination_blob_name host_clean table_name q, serialize (remote q)) :: acc
    else acc) []

/-- A key-value store (local directory tree or remote bucket) as a partial
map; writing an existing key overwrites it. -/
def applyWrites {κ : Type} [DecidableEq κ] (ws : List (κ × String))
    (store : κ → Option String) : κ → Option String :=
  ws.foldl (fun s w => fun k => if k = w.1 then some w.2 else s k) store

/-! ### String facts used for artifact-name determinism -/

theorem string_data_append (a b : String) : (a ++ b).data = a.data ++ b.data := rfl

theorem string_eq_of_data {a b : String} (h : a.data = b.data) : a = b := by
  cases a; cases b; exact congrArg String.mk h

theorem string_append_cancel_left {a b c : String} (h : a ++ b = a ++ c) : b = c := by
  apply string_eq_of_data
  have hd : a.data ++ b.data = a.data ++ c.data := by
    rw [← string_data_append, ← string_data_append, h]
  exact List.append_cancel_left hd

theorem string_append_cancel_right {a b c : String} (h : a ++ c = b ++ c) : a = b := by
  apply string_eq_of_data
  have hd : a.data ++ c.data = b.data ++ c.data := by
    rw [← string_data_append, ← string_data_append, h]
  exact List.append_cancel_right hd

theorem string_data_length_eq {a b : String} (h : a = b) :
    a.data.length = b.data.length := by
  rw [h]

/-! ### Store lemmas -/

theorem applyWrites_cons {κ : Type} [DecidableEq κ] (w : κ × String) (t : List (κ × String))
    (s : κ → Option String) :
    applyWrites (w :: t) s = applyWrites t (fun k => if k = w.1 then some w.2 else s k) := rfl

theorem applyWrites_not_written {κ : Type} [DecidableEq κ] (ws : List (κ × String))
    (s : κ → Option String) (k : κ) (h : ∀ w ∈ ws, w.1 ≠ k) :
    applyWrites ws s k = s k := by
  induction ws generalizing s with
  | nil => rfl
  | cons w t ih =>
    have hw : w.1 ≠ k := h w (by simp)
    have ht : ∀ x ∈ t, x.1 ≠ k := fun x hx => h x (by simp [hx])
    rw [applyWrites_cons, ih _ ht]
    exact if_neg (fun hk => hw hk.symm)

theorem applyWrites_written {κ : Type} [DecidableEq κ] (ws : List (κ × String))
    (s₁ s₂ : κ → Option String) (k : κ) (h : ∃ w ∈ ws, w.1 = k) :
    applyWrites ws s₁ k = applyWrites ws s₂ k := by
  induction ws generalizing s₁ s₂ with
  | nil =>
    obtain ⟨w, hw, _⟩ := h
    cases hw
  | cons w t ih =>
    by_cases htk : ∃ x ∈ t, x.1 = k
    · rw [applyWrites_cons, applyWrites_cons]
      exact ih _ _ htk
    · obtain ⟨x, hx, hxk⟩ := h
      have hw : w.1 = k := by
        rcases (by simpa using hx : x = w ∨ x ∈ t) with rfl | hmem
        · exact hxk
        · exact absurd ⟨x, hmem, hxk⟩ htk
      have ht : ∀ y ∈ t, y.1 ≠ k := fun y hy hyk => htk ⟨y, hy, hyk⟩
      rw [applyWrites_cons, applyWrites_cons,
        applyWrites_not_written t _ k ht, applyWrites_not_written t _ k ht,
        if_pos hw.symm, if_pos hw.symm]

theorem applyWrites_idem {κ : Type} [DecidableEq κ] (ws : List (κ × String))
    (s : κ → Option String) :
    applyWrites ws (applyWrites ws s) = applyWrites ws s := by
  funext k
  by_cases h : ∃ w ∈ ws, w.1 = k
  · exact applyWrites_written ws _ s k h
  · have h2 : ∀ w ∈ ws, w.1 ≠ k := fun w hw hk => h ⟨w, hw, hk⟩
    rw [applyWrites_not_written ws _ k h2]

/-! ### Artifact-name injectivity -/

theorem data_file_name_inj (table_name : String) {q₁ q₂ : Option String}
    (h : data_file_name table_name q₁ = data_file_name table_name q₂) : q₁ = q₂ := by
  match q₁, q₂ with
  | none, none => rfl
  | some a, some b =>
    simp only [data_file_name] at h
    have h1 : table_name ++ "_" ++ a = table_name ++ "_" ++ b :=
      string_append_cancel_right h
    exact congrArg some (string_append_cancel_left h1)
  | some a, none =>
    exfalso
    simp only [data_file_name] at h
    have h1 : table_name ++ "_" ++ a = table_name := string_append_cancel_right h
    have h2 := string_data_length_eq h1
    simp [string_data_append] at h2
  | none, some b =>
    exfalso
    simp only [data_file_name] at h
    have h1 : table_name = table_name ++ "_" ++ b := string_append_cancel_right h
    have h2 := string_data_length_eq h1
    simp [string_data_append] at h2

theorem destination_blob_name_inj (host_clean table_name : String) {q₁ q₂ : Option String}
    (h : destination_blob_name host_clean table_name q₁
      = destination_blob_name host_clean table_name q₂) : q₁ = q₂ := by
  simp only [destination_blob_name] at h
  exact data_file_name_inj table_name (string_append_cancel_left h)

/-! ### Token arithmetic -/

theorem day_in_seconds_lt_of_three_days {r : Int} (h : 3 ≤ tokenRemainingDays r) :
    86400 < r := by
  unfold tokenRemainingDays at h
  rw [Int.fdiv_eq_ediv _ (by norm_num)] at h
  have h2 := (Int.le_ediv_iff_mul_le (by norm_num : (0 : Int) < 86400)).mp h
  omega

/-! ### Pipeline replay lemmas -/

theorem processExpr_ok (o : ExprOutcome) (h : notifiesOk o = true) :
    processExpr o = .ok (statusOf o, traceOf o) := by
  rcases o with ⟨c, nc, fr, pr, ur, ne⟩
  rw [notifiesOk] at h
  obtain ⟨h1, h2⟩ := Bool.and_eq_true_iff.mp h
  subst h1
  subst h2
  cases c with
  | error e => rfl
  | ok n =>
    by_cases hn : n > 0
    · cases fr with
      | error e => simp [processExpr, statusOf, traceOf, hn]
      | ok k =>
        cases pr with
        | error e => simp [processExpr, statusOf, traceOf, hn]
        | ok u1 =>
          cases ur with
          | error e => simp [processExpr, statusOf, traceOf, hn]
          | ok u2 => simp [processExpr, statusOf, traceOf, hn]
    · simp [processExpr, statusOf, traceOf, hn]

theorem processExprs_ok (os : List ExprOutcome) (h : ∀ o ∈ os, notifiesOk o = true) :
    processExprs os = .ok (os.map statusOf) := by
  induction os with
  | nil => rfl
  | cons o rest ih =>
    have h1 := processExpr_ok o (h o (by simp))
    have h2 := ih (fun x hx => h x (by simp [hx]))
    simp [processExprs, h1, h2]

theorem processTables_ok (tables : List (List ExprOutcome))
    (h : ∀ os ∈ tables, ∀ o ∈ os, notifiesOk o = true) :
    processTables tables = .ok (tables.map (fun os => os.map statusOf)) := by
  induction tables with
  | nil => rfl
  | cons os rest ih =>
    have h1 := processExprs_ok os (h os (by simp))
    have h2 := ih (fun os2 hos2 => h os2 (by simp [hos2]))
    simp [processTables, h1, h2]

/-! ## Claims -/

/-- C1: when every notify call succeeds, a failure of the count call for one
expression causes that expression to be logged and notified and skipped (its
only external calls are the count and the notify), and the remaining
expressions of its table and all other tables are still processed: every
table contributes exactly one status per expression. -/
theorem count_failure_isolated (tables : List (List ExprOutcome))
    (hall : ∀ os ∈ tables, ∀ o ∈ os, notifiesOk o = true) :
    processTables tables = .ok (tables.map (fun os => os.map statusOf)) ∧
    (∀ os ∈ tables, (os.map statusOf).length = os.length) ∧
    (∀ os ∈ tables, ∀ o ∈ os, countFailed o = true →
      statusOf o = .skippedCountError ∧
      processExpr o = .ok (.skippedCountError, [.countCall, .notifyCall])) := by
  refine ⟨processTables_ok tables hall, fun os _ => by simp, ?_⟩
  intro os hos o ho hcf
  have hn := hall os hos o ho
  rcases o with ⟨c, nc, fr, pr, ur, ne⟩
  cases c with
  | ok k => simp [countFailed] at hcf
  | error e =>
    rw [notifiesOk] at hn
    obtain ⟨h1, h2⟩ := Bool.and_eq_true_iff.mp hn
    subst h1
    exact ⟨rfl, rfl⟩

/-- C1 witness: a two-table run with a failing count in the first table; both
tables are fully processed and the failing expression is skipped. -/
theorem count_failure_isolated_witness :
    processTables
        [[⟨.error .transient, true, .ok 0, .ok (), .ok (), true⟩, happyOutcome 2 2],
         [happyOutcome 1 1]]
      = .ok ([[⟨.error .transient, true, .ok 0, .ok (), .ok (), true⟩, happyOutcome 2 2],
         [happyOutcome 1 1]].map (fun os => os.map statusOf)) ∧
    (∀ os ∈ [[⟨.error .transient, true, .ok 0, .ok (), .ok (), true⟩, happyOutcome 2 2],
         [happyOutcome 1 1]], (os.map statusOf).length = os.length) ∧
    (∀ os ∈ [[⟨.error .transient, true, .ok 0, .ok (), .ok (), true⟩, happyOutcome 2 2],
         [happyOutcome 1 1]], ∀ o ∈ os, countFailed o = true →
      statusOf o = .skippedCountError ∧
      processExpr o = .ok (.skippedCountError, [.countCall, .notifyCall])) :=
  count_failure_isolated _ (by decide)

/-- C2: for a table with a query descriptor and an empty artifact directory,
the plan is the historical generator output (natural order
most-recent-period-first) reversed before being returned, hence the executed
plan is ordered oldest period first (period indices ascend with
`List.range`). -/
theorem historical_plan_reversed_oldest_first (qd : QueryDescriptor)
    (current_yearid today : Nat) :
    plan (some qd) [] current_yearid today
      = ((generate_historical_queries current_yearid qd.selector).reverse).map some ∧
    plan (some qd) [] current_yearid today
      = (List.range (current_yearid + 1)).map (fun y => some (histExpr qd.selector y)) := by
  constructor
  · rfl
  · show historicalPlan qd current_yearid = _
    unfold historicalPlan generate_historical_queries
    rw [← List.map_reverse, List.reverse_reverse, List.map_map]
    rfl

/-- C3: the cached token is accepted only when the token file exists and the
remaining validity strictly exceeds one day (this variant requires more than
two whole days); a missing file or at most two whole days remaining triggers
exactly one client-credentials authentication whose token is persisted; ample
remaining validity triggers no refresh. -/
theorem token_lifecycle_policy (fileExists : Bool) (expires_at now : Int) :
    ((authenticate fileExists expires_at now).mode = .cached →
      fileExists = true ∧ 86400 < expires_at - now) ∧
    (fileExists = false →
      authenticate fileExists expires_at now = ⟨.clientCredentials, 1, true⟩) ∧
    (fileExists = true → tokenRemainingDays (expires_at - now) ≤ 2 →
      authenticate fileExists expires_at now = ⟨.clientCredentials, 1, true⟩) ∧
    (fileExists = true → 2 < tokenRemainingDays (expires_at - now) →
      (authenticate fileExists expires_at now).refreshCalls = 0) := by
  refine ⟨?_, ?_, ?_, ?_⟩
  · intro hm
    cases hfe : fileExists with
    | false =>
      rw [hfe] at hm
      simp [authenticate] at hm
    | true =>
      refine ⟨rfl, ?_⟩
      rw [hfe] at hm
      by_cases hd : tokenRemainingDays (expires_at - now) ≤ 2
      · simp [authenticate, hd] at hm
      · exact day_in_seconds_lt_of_three_days (by omega)
  · intro hfe
    rw [hfe]
    simp [authenticate]
  · intro hfe hd
    rw [hfe]
    simp [authenticate, hd]
  · intro hfe hd
    rw [hfe]
    have hd2 : ¬ tokenRemainingDays (expires_at - now) ≤ 2 := by omega
    simp [authenticate, hd2]

/-- C3 witness: concrete clocks exercising each branch of the policy. -/
theorem token_lifecycle_policy_witness :
    authenticate true 200000 0 = ⟨.clientCredentials, 1, true⟩ ∧
    authenticate false 123 0 = ⟨.clientCredentials, 1, true⟩ ∧
    (authenticate true 1000000 0).refreshCalls = 0 :=
  ⟨(token_lifecycle_policy true 200000 0).2.2.1 rfl (by decide),
   (token_lifecycle_policy false 123 0).2.1 rfl,
   (token_lifecycle_policy true 1000000 0).2.2.2 rfl (by decide)⟩

/-- C4 counterexample: count returns 10 but fetch returns only 3 records; the
loop body makes exactly one count call, raises no error, and persists and
uploads the truncated result, so no recount happens and no data-integrity
error is raised. -/
theorem no_recount_counterexample :
    processExpr (happyOutcome 10 3)
      = .ok (.uploaded, [.countCall, .queryCall, .saveCall, .uploadCall]) ∧
    (traceOf (happyOutcome 10 3)).count .countCall = 1 :=
  ⟨rfl, rfl⟩

/-- C4 amended: the code performs no consistency check. For every positive
count `n` and any smaller number `m` of fetched records, the expression makes
exactly one count call, is persisted and uploaded without error, and the
remaining expressions still execute. -/
theorem truncated_fetch_persisted (n m : Nat) (rest : List ExprOutcome)
    (hn : 0 < n) (hm : m < n)
    (hrest : ∀ o ∈ rest, notifiesOk o = true) :
    processExpr (happyOutcome n m)
      = .ok (.uploaded, [.countCall, .queryCall, .saveCall, .uploadCall]) ∧
    (traceOf (happyOutcome n m)).count .countCall = 1 ∧
    processExprs (happyOutcome n m :: rest) = .ok (.uploaded :: rest.map statusOf) := by
  have h1 : processExpr (happyOutcome n m)
      = .ok (.uploaded, [.countCall, .queryCall, .saveCall, .uploadCall]) := by
    simp [processExpr, happyOutcome, hn]
  have htr : traceOf (happyOutcome n m) = [.countCall, .queryCall, .saveCall, .uploadCall] := by
    simp [traceOf, happyOutcome, hn]
  refine ⟨h1, ?_, ?_⟩
  · rw [htr]
    decide
  · have h2 := processExprs_ok rest hrest
    simp [processExprs, h1, h2]

/-- C4 amended witness. -/
theorem truncated_fetch_persisted_witness :
    processExpr (happyOutcome 10 3)
      = .ok (.uploaded, [.countCall, .queryCall, .saveCall, .uploadCall]) ∧
    (traceOf (happyOutcome 10 3)).count .countCall = 1 ∧
    processExprs (happyOutcome 10 3 :: []) = .ok (.uploaded :: [].map statusOf) :=
  truncated_fetch_persisted 10 3 [] (by decide) (by decide) (by decide)

/-- C5 counterexample: a transport-level disconnect raised during fetch does
not abort the run: the expression is reported, and both the next expression
and the next table still execute. -/
theorem session_fatal_not_aborting :
    processTables [[disconnectOutcome, happyOutcome 2 2], [happyOutcome 1 1]]
      = .ok [[.extractErrorReported, .uploaded], [.uploaded]] := rfl

/-- C5 amended: every exception class raised during fetch, including
authorization-expired and transport-disconnect, is caught; provided the
notify call in the handler succeeds, processing continues with the next
expression and with all remaining tables, and no class aborts the run. -/
theorem fetch_error_continues (e : ErrClass) (n : Nat) (rest : List ExprOutcome)
    (tables : List (List ExprOutcome)) (hn : 0 < n)
    (hrest : ∀ o ∈ rest, notifiesOk o = true)
    (htab : ∀ os ∈ tables, ∀ o ∈ os, notifiesOk o = true) :
    processTables ((⟨.ok n, true, .error e, .ok (), .ok (), true⟩ :: rest) :: tables)
      = .ok ((.extractErrorReported :: rest.map statusOf)
          :: tables.map (fun os => os.map statusOf)) := by
  have h1 : processExpr ⟨.ok n, true, .error e, .ok (), .ok (), true⟩
      = .ok (.extractErrorReported, [.countCall, .queryCall, .notifyCall]) := by
    simp [processExpr, hn]
  have h2 := processExprs_ok rest hrest
  have h3 := processTables_ok tables htab
  simp [processTables, processExprs, h1, h2, h3]

/-- C5 amended witness. -/
theorem fetch_error_continues_witness :
    processTables ((⟨.ok 5, true, .error .transportDisconnect, .ok (), .ok (), true⟩
          :: [happyOutcome 2 2]) :: [[happyOutcome 1 1]])
      = .ok ((.extractErrorReported :: [happyOutcome 2 2].map statusOf)
          :: [[happyOutcome 1 1]].map (fun os => os.map statusOf)) :=
  fetch_error_continues .transportDisconnect 5 [happyOutcome 2 2] [[happyOutcome 1 1]]
    (by decide) (by decide) (by decide)

/-- C6: the planner switches between historical backfill and incremental mode
solely on whether the table directory listing is empty: plans agree whenever
the emptiness of the listings agrees (names and contents of the files are
never consulted), an empty listing yields the backfill plan, and any
non-empty listing yields the incremental plan. -/
theorem plan_mode_presence_probe (qd : QueryDescriptor) (files₁ files₂ : List String)
    (current_yearid today : Nat) (hsame : files₁.isEmpty = files₂.isEmpty) :
    plan (some qd) files₁ current_yearid today = plan (some qd) files₂ current_yearid today ∧
    plan (some qd) [] current_yearid today = historicalPlan qd current_yearid ∧
    (∀ f fs, plan (some qd) (f :: fs) current_yearid today
      = incrementalPlan qd current_yearid today) := by
  refine ⟨?_, rfl, fun f fs => rfl⟩
  simp only [plan]
  rw [hsame]

/-- C6 witness: two different non-empty listings give the same plan. -/
theorem plan_mode_presence_probe_witness :
    plan (some ⟨"yearid", []⟩) ["a"] 3 20000 = plan (some ⟨"yearid", []⟩) ["b", "c"] 3 20000 ∧
    plan (some ⟨"yearid", []⟩) [] 3 20000 = historicalPlan ⟨"yearid", []⟩ 3 ∧
    (∀ f fs, plan (some ⟨"yearid", []⟩) (f :: fs) 3 20000
      = incrementalPlan ⟨"yearid", []⟩ 3 20000) :=
  plan_mode_presence_probe ⟨"yearid", []⟩ ["a"] ["b", "c"] 3 20000 rfl

/-- C7: with existing data and values = ["yesterday"], the single planned
expression is the greater-or-equal FIQL bound on the selector at the ISO date
of today minus one day, recomputed from the clock passed in at call time; at
two concrete clock values one day apart the bound moves with the clock. -/
theorem yesterday_expression_bound (sel : String) (current_yearid today : Nat)
    (f : String) (fs : List String) :
    plan (some ⟨sel, ["yesterday"]⟩) (f :: fs) current_yearid today
      = [some (sel ++ "=ge=" ++ isoformat (today - 1))] ∧
    civilFromDays 19999 = (2024, 10, 3) ∧
    plan (some ⟨"transaction_date", ["yesterday"]⟩) ["x"] 33 20000
      = [some "transaction_date=ge=2024-10-03"] ∧
    plan (some ⟨"transaction_date", ["yesterday"]⟩) ["x"] 33 20001
      = [some "transaction_date=ge=2024-10-04"] :=
  ⟨rfl, by decide, by decide, by decide⟩

/-- C8: rerunning a table against unchanged remote data is idempotent: the
rerun writes the same values at the same deterministic keys, so applying its
writes a second time leaves the local store and the remote bucket exactly as
after the first application; the artifact file name and the remote blob key
are injective in the filter, so a rerun with the same filter overwrites its
artifact instead of creating a second key. -/
theorem rerun_idempotent (host_clean table_name : String)
    (remote : Option String → List Nat) (qs : List (Option String))
    (localStore : List String → Option String) (bucket : String → Option String) :
    applyWrites (runTableWrites host_clean table_name remote qs)
        (applyWrites (runTableWrites host_clean table_name remote qs) localStore)
      = applyWrites (runTableWrites host_clean table_name remote qs) localStore ∧
    applyWrites (runTableUploads host_clean table_name remote qs)
        (applyWrites (runTableUploads host_clean table_name remote qs) bucket)
      = applyWrites (runTableUploads host_clean table_name remote qs) bucket ∧
    (∀ q₁ q₂ : Option String,
      data_file_name table_name q₁ = data_file_name table_name q₂ → q₁ = q₂) ∧
    (∀ q₁ q₂ : Option String,
      destination_blob_name host_clean table_name q₁
        = destination_blob_name host_clean table_name q₂ → q₁ = q₂) :=
  ⟨applyWrites_idem _ _, applyWrites_idem _ _,
   fun _ _ h => data_file_name_inj table_name h,
   fun _ _ h => destination_blob_name_inj host_clean table_name h⟩

/-- C8 witness: a concrete one-table run applied twice. -/
theorem rerun_idempotent_witness :
    applyWrites (runTableWrites "example_com" "students" (fun _ => [1, 2]) [none, some "a"])
        (applyWrites (runTableWrites "example_com" "students" (fun _ => [1, 2]) [none, some "a"])
          (fun _ => none))
      = applyWrites (runTableWrites "example_com" "students" (fun _ => [1, 2]) [none, some "a"])
          (fun _ => none) ∧
    applyWrites (runTableUploads "example_com" "students" (fun _ => [1, 2]) [none, some "a"])
        (applyWrites (runTableUploads "example_com" "students" (fun _ => [1, 2]) [none, some "a"])
          (fun _ => none))
      = applyWrites (runTableUploads "example_com" "students" (fun _ => [1, 2]) [none, some "a"])
          (fun _ => none) ∧
    (some "a" : Option String) = some "a" := by
  have h := rerun_idempotent "example_com" "students" (fun _ => [1, 2]) [none, some "a"]
      (fun _ => none) (fun _ => none)
  exact ⟨h.1, h.2.1, h.2.2.1 (some "a") (some "a") rfl⟩

/-- C9 counterexample: the count call of the first expression fails and the
notify call in its handler also fails: the run aborts and neither the second
expression nor the second table is processed. -/
theorem notify_failure_aborts_counterexample :
    processTables [[badNotifyOutcome, happyOutcome 1 1], [happyOutcome 1 1]]
      = .error .notifyRaised := rfl

/-- C9 amended: a failure of the notify call inside the count-error handler
propagates out of the handler and aborts the run; the remaining expressions
and tables are not processed. -/
theorem notify_failure_aborts (o : ExprOutcome) (rest : List ExprOutcome)
    (tables : List (List ExprOutcome))
    (hc : countFailed o = true) (hnc : o.notifyCountOk = false) :
    processTables ((o :: rest) :: tables) = .error .notifyRaised := by
  have h1 : processExpr o = .error .notifyRaised := by
    rcases o with ⟨c, nc, fr, pr, ur, ne⟩
    cases c with
    | ok k => simp [countFailed] at hc
    | error e =>
      have hb : nc = false := hnc
      subst hb
      rfl
  simp [processTables, processExprs, h1]

/-- C9 amended witness. -/
theorem notify_failure_aborts_witness :
    processTables (([⟨.error .generic, false, .ok 0, .ok (), .ok (), true⟩, happyOutcome 1 1])
        :: [[happyOutcome 1 1]])
      = .error .notifyRaised :=
  notify_failure_aborts ⟨.error .generic, false, .ok 0, .ok (), .ok (), true⟩
    [happyOutcome 1 1] [[happyOutcome 1 1]] (by decide) (by decide)

/-- C10: in src/extract.py, when the token file does not exist the validity
check reads the never-assigned name `token_remaining` and raises; the
surrounding handler catches the exception, the program authenticates with
client credentials, and the run proceeds instead of aborting. -/
theorem missing_token_file_name_error (expires_at now : Int) :
    tokenCheckLegacy false expires_at now = .error .nameError ∧
    authenticateLegacy false expires_at now = .clientCredentials :=
  ⟨rfl, rfl⟩

end PowerschoolSync
